import Mathlib

/-!
Verification of DocSkiBot's authentication core and message-handling helpers.

The definitions below are a shallow embedding of the Python sources:
  * `src/auth/__init__.py` — per-user Google OAuth2 token management
    (`is_authenticated`, `get_credentials`, `save_credentials`,
    `get_auth_url`, `exchange_code`, the `current_user_id` ContextVar);
  * `src/auth/server.py` — the `/oauth/callback` FastAPI handler;
  * `src/skills/bot.py` — `process_message`'s identity-binding discipline
    and the `_split` reply chunker;
  * `src/skills/picker.py` / `src/skills/forms.py` — the pending-UI slots.

Filesystem state (one token file per user under `TOKENS_DIR`) is embedded
as a function from user id to an optional stored record; network calls
(token refresh, code-for-token exchange, Discord DM) are embedded as
explicit parameters describing their outcome.
-/

namespace DocSkiBot

/-! ### Credential records

`google.oauth2.credentials.Credentials`, restricted to the fields the
repository's logic reads or branches on: the access token, the optional
refresh token, and the expiry timestamp.  `save_credentials` writes
`creds.to_json()` and `get_credentials` reads it back with
`Credentials.from_authorized_user_file`; on these fields that
serialization round-trip is the identity, so the store below holds the
records themselves. -/

structure Credentials where
  token : String
  refresh_token : Option String
  /-- Expiry as a UTC timestamp in seconds; `none` when the record
  carries no expiry (the library then reports it as not expired). -/
  expiry : Option Nat
  deriving Repr, DecidableEq

/-- `creds.expired`: `False` when no expiry is recorded, otherwise true
once the current time has reached the expiry. -/
def Credentials.expired (c : Credentials) (now : Nat) : Bool :=
  match c.expiry with
  | none => false
  | some e => decide (e ≤ now)

/-- Python truthiness of `creds.refresh_token` in
`if creds.expired and creds.refresh_token:`  — `None` and the empty
string are both falsy. -/
def Credentials.hasRefreshToken (c : Credentials) : Bool :=
  match c.refresh_token with
  | none => false
  | some s => !s.isEmpty

/-! ### Token store

One JSON file per Discord user id under `TOKENS_DIR`; embedded as a map
from user id to the optionally-present stored record. -/

def TokenStore : Type := String → Option Credentials

/-- The state before any user has authenticated: no token file exists. -/
def emptyStore : TokenStore := fun _ => none

/-- `save_credentials(user_id, creds)`: persist the record, overwriting
any existing file for that user. -/
def save_credentials (store : TokenStore) (user_id : String)
    (creds : Credentials) : TokenStore :=
  fun v => if v = user_id then some creds else store v

/-- `is_authenticated(user_id)`: true iff a token file exists for this
user — presence only, no validity check. -/
def is_authenticated (store : TokenStore) (user_id : String) : Bool :=
  (store user_id).isSome

/-- `creds.refresh(Request())`: the network renewal exchange.  The token
endpoint returns a fresh access token and a positive lifetime; the
library sets `expiry := now + lifetime`, keeping the refresh token. -/
def refreshed (c : Credentials) (now lifetime : Nat) (newTok : String) :
    Credentials :=
  { c with token := newTok, expiry := some (now + lifetime) }

/-- Outcome of one `get_credentials` call: the returned record (if any),
the store after the call, and whether a network renewal was performed. -/
structure LoadResult where
  creds : Option Credentials
  store : TokenStore
  networkRefresh : Bool

/-- `get_credentials(user_id)`: load from disk; `None` if no file; if the
record is expired and carries a refresh token, renew over the network and
persist the renewed record before returning it; otherwise return it as
stored.  `now` is the current time, `lifetime`/`newTok` describe the
token endpoint's response to a renewal. -/
def get_credentials (store : TokenStore) (user_id : String)
    (now lifetime : Nat) (newTok : String) : LoadResult :=
  match store user_id with
  | none => ⟨none, store, false⟩
  | some creds =>
    if creds.expired now && creds.hasRefreshToken then
      let c := refreshed creds now lifetime newTok
      ⟨some c, save_credentials store user_id c, true⟩
    else
      ⟨some creds, store, false⟩

/-- `exchange_code(user_id, code)`: swap the one-time code for
credentials via `flow.fetch_token(code=code)` — which may raise — and on
success persist them via `save_credentials` and return them.  `fetch`
describes the network outcome for each code. -/
def exchange_code (store : TokenStore) (user_id code : String)
    (fetch : String → Except String Credentials) :
    Except String (Credentials × TokenStore) :=
  match fetch code with
  | .error e => .error e
  | .ok creds => .ok (creds, save_credentials store user_id creds)

/-! ### Consent URL construction (`get_auth_url`) -/

/-- The two scopes requested together in one OAuth grant (`SCOPES`). -/
def SCOPES : List String :=
  ["https://www.googleapis.com/auth/documents",
   "https://www.googleapis.com/auth/drive"]

/-- Configuration read from the client-secrets file and environment. -/
structure OAuthConfig where
  client_id : String
  auth_endpoint : String
  redirect_uri : String
  deriving Repr, DecidableEq

/-- The authorization URL as the query parameters it carries. -/
structure AuthUrl where
  auth_endpoint : String
  client_id : String
  redirect_uri : String
  scope : List String
  access_type : String
  prompt : String
  state : String
  /-- Per-call PKCE code challenge, freshly generated by the library on
  each `authorization_url` call — the only per-call varying part. -/
  code_challenge : String
  deriving Repr, DecidableEq

/-- `get_auth_url(user_id)`: build the consent URL with the fixed scope
set, `access_type=offline`, `prompt=consent`, and the Discord user id
embedded verbatim as `state`.  `nonce` is the per-call PKCE challenge. -/
def get_auth_url (cfg : OAuthConfig) (user_id nonce : String) : AuthUrl :=
  { auth_endpoint := cfg.auth_endpoint
    client_id := cfg.client_id
    redirect_uri := cfg.redirect_uri
    scope := SCOPES
    access_type := "offline"
    prompt := "consent"
    state := user_id
    code_challenge := nonce }

/-! ### The `/oauth/callback` handler (`src/auth/server.py`) -/

/-- The three HTML responses the handler can return. -/
inductive CallbackResponse where
  /-- 400 "Authorization cancelled" page. -/
  | cancelled : CallbackResponse
  /-- 500 "Something went wrong" page carrying the exception text. -/
  | exchangeFailed : String → CallbackResponse
  /-- 200 "Connected!" page. -/
  | connected : CallbackResponse
  deriving Repr, DecidableEq

/-- HTTP status code of each response. -/
def CallbackResponse.status : CallbackResponse → Nat
  | .cancelled => 400
  | .exchangeFailed _ => 500
  | .connected => 200

/-- Outcome of one callback request: the HTTP response, the store after
the request, whether a credential exchange was attempted, and whether
the best-effort Discord DM went through. -/
structure CallbackResult where
  response : CallbackResponse
  store : TokenStore
  exchangeAttempted : Bool
  notified : Bool

/-- `oauth_callback(code, state, error)`: missing `code` or `state`, or a
present `error`, is a cancelled flow (400, no exchange).  Otherwise
exchange the code; an exception yields the 500 page and leaves the store
as the failed `exchange_code` left it.  On success the DM to the user is
attempted only when the Discord client is wired up, and any DM failure
is caught and logged without touching the HTTP response. -/
def oauth_callback (store : TokenStore) (code state error : String)
    (fetch : String → Except String Credentials)
    (clientPresent notifyOk : Bool) : CallbackResult :=
  if error ≠ "" ∨ code = "" ∨ state = "" then
    ⟨.cancelled, store, false, false⟩
  else
    match exchange_code store state code fetch with
    | .error e => ⟨.exchangeFailed e, store, true, false⟩
    | .ok (_, store1) => ⟨.connected, store1, true, clientPresent && notifyOk⟩

/-! ### Request identity context (`current_user_id` ContextVar) -/

/-- `contextvars.ContextVar` holding the acting user's id for the current
logical request; `none` means unset (the variable was declared with
`default=""`, which `get` returns in that case). -/
structure ContextVar where
  binding : Option String
  deriving Repr, DecidableEq

/-- `current_user_id.get()`: the active binding, or the default `""`. -/
def ContextVar.get (v : ContextVar) : String :=
  v.binding.getD ""

/-- The token returned by `ContextVar.set`, recording the binding that
was active before so `reset` can restore it. -/
structure CtxToken where
  old_value : Option String
  deriving Repr, DecidableEq

/-- `current_user_id.set(x)`: bind `x`, returning the restore token. -/
def ContextVar.set (v : ContextVar) (x : String) : CtxToken × ContextVar :=
  (⟨v.binding⟩, ⟨some x⟩)

/-- `current_user_id.reset(token)`: revert to the binding recorded in the
token (the one active before the matching `set`). -/
def ContextVar.reset (_v : ContextVar) (t : CtxToken) : ContextVar :=
  ⟨t.old_value⟩

/-- The identity that was observed during the agent run, and the context
binding after `process_message` returns. -/
structure ProcessCtxResult where
  observed : String
  ctx : ContextVar
  deriving Repr, DecidableEq

/-- The identity-context effect of `process_message` (bot.py 150–162) for
an authenticated user: `token = current_user_id.set(user_id)`; the agent
runs under that binding (and may raise — the `except` only rewrites the
reply); the `finally` always runs `current_user_id.reset(token)`. -/
def process_message_ctx (user_id : String) (agentRaises : Bool)
    (v : ContextVar) : ProcessCtxResult :=
  let su := v.set user_id
  let _ := agentRaises
  { observed := su.2.get, ctx := su.2.reset su.1 }

/-! ### Reply chunking (`_split` in bot.py) -/

/-- The chunking loop of `_split`: `while start < len(text)` append
`text[start:start+limit]` and advance `start` by `limit` — expressed by
dropping the consumed prefix.  A zero `limit` never occurs: `_split` is
only ever called with its default `limit=1900`. -/
def splitChunks : List Char → Nat → List (List Char)
  | [], _ => []
  | _ :: _, 0 => []
  | c :: rest, Nat.succ l =>
    (c :: rest).take (l + 1) :: splitChunks ((c :: rest).drop (l + 1)) (l + 1)
termination_by text _ => text.length
decreasing_by
  simp [List.length_drop]
  omega

/-- `_split(text, limit=1900)`: a short message is returned whole as a
single chunk; longer ones are cut into `limit`-sized pieces. -/
def split (text : List Char) (limit : Nat := 1900) : List (List Char) :=
  if text.length ≤ limit then [text] else splitChunks text limit

/-! ### Pending UI slots (`picker.py` / `forms.py`) -/

/-- One entry of the document picker: the fields `files().list` asks for. -/
structure DocMeta where
  id : String
  name : String
  modifiedTime : String
  deriving Repr, DecidableEq

/-- A field of a queued form, after the truncation in `RequestFormTool`. -/
structure FormField where
  label : String
  placeholder : String
  long : Bool
  deriving Repr, DecidableEq

/-- A queued form definition. -/
structure FormDef where
  title : String
  fields : List FormField
  deriving Repr, DecidableEq

/-- `store_pending_picker(docs)`: overwrite the module-global slot. -/
def store_pending_picker (docs : List DocMeta)
    (_slot : Option (List DocMeta)) : Option (List DocMeta) :=
  some docs

/-- `pop_pending_picker()`: return the slot's value and clear it. -/
def pop_pending_picker (slot : Option (List DocMeta)) :
    Option (List DocMeta) × Option (List DocMeta) :=
  (slot, none)

/-- `store_pending_form(form)`: overwrite the module-global slot. -/
def store_pending_form (form : FormDef) (_slot : Option FormDef) :
    Option FormDef :=
  some form

/-- `pop_pending_form()`: return the slot's value and clear it. -/
def pop_pending_form (slot : Option FormDef) :
    Option FormDef × Option FormDef :=
  (slot, none)

end DocSkiBot

namespace DocSkiBot

/-! ## Theorems -/

/-- Sanity check on a tiny concrete run of the splitter. -/
example : split "ab".toList 1 = [['a'], ['b']] := by
  simp [split, splitChunks]

/-- **C1** Request Identity Context isolation: binding identity `a`, then
nested-binding `b`, then restoring, then restoring again observes `b`
while `b` is bound and `a` both before `b`'s bind and after `b`'s
restore; the restore reverts to the prior binding `some a` (not the
unset sentinel), the second restore recovers the original context
exactly, and `process_message`'s reset runs (restoring the prior
context) whether or not the agent raised. -/
theorem context_isolation (a b u : String) (v : ContextVar)
    (agentRaises : Bool) :
    ((v.set a).2).get = a
    ∧ (((v.set a).2.set b).2).get = b
    ∧ ((((v.set a).2.set b).2).reset ((v.set a).2.set b).1).binding = some a
    ∧ ((((v.set a).2.set b).2).reset ((v.set a).2.set b).1).get = a
    ∧ (((((v.set a).2.set b).2).reset ((v.set a).2.set b).1).reset
        (v.set a).1) = v
    ∧ (process_message_ctx u agentRaises v).observed = u
    ∧ (process_message_ctx u agentRaises v).ctx = v := by
  refine ⟨rfl, rfl, rfl, rfl, rfl, rfl, rfl⟩

/-- **C2** Transparent refresh on load: an expired stored record carrying
a refresh token makes `get_credentials` perform the renewal exchange,
return a record whose expiry is strictly later than the stale one, and
persist that record; an immediately following load performs no further
renewal and returns the same renewed record. -/
theorem refresh_on_load (store : TokenStore) (u newTok : String)
    (r : Credentials) (now lifetime : Nat)
    (hstored : store u = some r)
    (hexp : r.expired now = true)
    (href : r.hasRefreshToken = true)
    (hlt : 0 < lifetime) :
    (get_credentials store u now lifetime newTok).networkRefresh = true
    ∧ ∃ c, (get_credentials store u now lifetime newTok).creds = some c
      ∧ (get_credentials store u now lifetime newTok).store u = some c
      ∧ (∃ e eNew, r.expiry = some e ∧ c.expiry = some eNew ∧ e < eNew)
      ∧ (get_credentials (get_credentials store u now lifetime newTok).store
          u now lifetime newTok).networkRefresh = false
      ∧ (get_credentials (get_credentials store u now lifetime newTok).store
          u now lifetime newTok).creds = some c := by
  obtain ⟨e, he⟩ : ∃ e, r.expiry = some e := by
    unfold Credentials.expired at hexp
    cases h : r.expiry with
    | none => rw [h] at hexp; simp at hexp
    | some e => exact ⟨e, rfl⟩
  have hele : e ≤ now := by
    unfold Credentials.expired at hexp
    rw [he] at hexp
    simpa using hexp
  have hcond : (r.expired now && r.hasRefreshToken) = true := by
    rw [hexp, href]; rfl
  have hfresh : (refreshed r now lifetime newTok).expired now = false := by
    unfold Credentials.expired refreshed
    simp
    omega
  refine ⟨?_, refreshed r now lifetime newTok, ?_, ?_, ⟨e, now + lifetime, he, rfl, by omega⟩, ?_, ?_⟩
  · unfold get_credentials
    rw [hstored]
    simp [hcond]
  · unfold get_credentials
    rw [hstored]
    simp [hcond]
  · unfold get_credentials
    rw [hstored]
    simp only [hcond, if_pos]
    unfold save_credentials
    simp
  · unfold get_credentials
    rw [hstored]
    simp only [hcond, if_pos]
    unfold save_credentials
    simp [hfresh]
  · unfold get_credentials
    rw [hstored]
    simp only [hcond, if_pos]
    unfold save_credentials
    simp [hfresh]

/-- Witness for `refresh_on_load` at a concrete expired-but-renewable
record. -/
theorem refresh_on_load_witness :
    (get_credentials (save_credentials emptyStore "42"
        ⟨"tok", some "ref", some 5⟩) "42" 10 3600 "tok2").networkRefresh = true
    ∧ ∃ c, (get_credentials (save_credentials emptyStore "42"
        ⟨"tok", some "ref", some 5⟩) "42" 10 3600 "tok2").creds = some c
      ∧ (get_credentials (save_credentials emptyStore "42"
          ⟨"tok", some "ref", some 5⟩) "42" 10 3600 "tok2").store "42" = some c
      ∧ (∃ e eNew, (Credentials.mk "tok" (some "ref") (some 5)).expiry = some e
          ∧ c.expiry = some eNew ∧ e < eNew)
      ∧ (get_credentials (get_credentials (save_credentials emptyStore "42"
          ⟨"tok", some "ref", some 5⟩) "42" 10 3600 "tok2").store
          "42" 10 3600 "tok2").networkRefresh = false
      ∧ (get_credentials (get_credentials (save_credentials emptyStore "42"
          ⟨"tok", some "ref", some 5⟩) "42" 10 3600 "tok2").store
          "42" 10 3600 "tok2").creds = some c :=
  refresh_on_load (save_credentials emptyStore "42" ⟨"tok", some "ref", some 5⟩)
    "42" "tok2" ⟨"tok", some "ref", some 5⟩ 10 3600 (by decide) (by decide)
    (by decide) (by decide)

/-- **C3** Unrenewable stale record: an expired stored record with no
(usable) refresh token is returned unchanged by `get_credentials`, with
no network call and the store untouched. -/
theorem stale_unrenewable (store : TokenStore) (u newTok : String)
    (r : Credentials) (now lifetime : Nat)
    (hstored : store u = some r)
    (hexp : r.expired now = true)
    (href : r.hasRefreshToken = false) :
    (get_credentials store u now lifetime newTok).creds = some r
    ∧ (get_credentials store u now lifetime newTok).networkRefresh = false
    ∧ (get_credentials store u now lifetime newTok).store = store := by
  have hcond : (r.expired now && r.hasRefreshToken) = false := by
    rw [hexp, href]; rfl
  unfold get_credentials
  rw [hstored]
  simp [hcond]

/-- Witness for `stale_unrenewable` at a concrete expired record with no
refresh token. -/
theorem stale_unrenewable_witness :
    (get_credentials (save_credentials emptyStore "42" ⟨"tok", none, some 5⟩)
        "42" 10 3600 "tok2").creds = some ⟨"tok", none, some 5⟩
    ∧ (get_credentials (save_credentials emptyStore "42" ⟨"tok", none, some 5⟩)
        "42" 10 3600 "tok2").networkRefresh = false
    ∧ (get_credentials (save_credentials emptyStore "42" ⟨"tok", none, some 5⟩)
        "42" 10 3600 "tok2").store
      = save_credentials emptyStore "42" ⟨"tok", none, some 5⟩ :=
  stale_unrenewable (save_credentials emptyStore "42" ⟨"tok", none, some 5⟩)
    "42" "tok2" ⟨"tok", none, some 5⟩ 10 3600 (by decide) (by decide) (by decide)

/-- **C4** Existence tracks persistence: `is_authenticated` is false for
every user of the empty store (and in general exactly reports presence
of a stored entry, not validity), and becomes true immediately after
`save_credentials` or a successful `exchange_code` for that user. -/
theorem exists_tracks_persistence (store : TokenStore) (u code : String)
    (r c : Credentials) (fetch : String → Except String Credentials)
    (hfetch : fetch code = .ok c) :
    is_authenticated emptyStore u = false
    ∧ (is_authenticated store u = true ↔ ∃ rec, store u = some rec)
    ∧ is_authenticated (save_credentials store u r) u = true
    ∧ ∃ store1, exchange_code store u code fetch = .ok (c, store1)
        ∧ is_authenticated store1 u = true := by
  refine ⟨rfl, ?_, ?_, save_credentials store u c, ?_, ?_⟩
  · unfold is_authenticated
    cases h : store u <;> simp [h]
  · unfold is_authenticated save_credentials
    simp
  · unfold exchange_code
    rw [hfetch]
  · unfold is_authenticated save_credentials
    simp

/-- Witness for `exists_tracks_persistence` at a concrete successful
exchange. -/
theorem exists_tracks_persistence_witness :
    is_authenticated emptyStore "42" = false
    ∧ (is_authenticated emptyStore "42" = true ↔ ∃ rec, emptyStore "42" = some rec)
    ∧ is_authenticated (save_credentials emptyStore "42" ⟨"tok", some "ref", some 99⟩) "42" = true
    ∧ ∃ store1, exchange_code emptyStore "42" "thecode"
        (fun _ => .ok ⟨"tok2", some "ref2", some 99⟩)
        = .ok (⟨"tok2", some "ref2", some 99⟩, store1)
        ∧ is_authenticated store1 "42" = true :=
  exists_tracks_persistence emptyStore "42" "thecode"
    ⟨"tok", some "ref", some 99⟩ ⟨"tok2", some "ref2", some 99⟩
    (fun _ => .ok ⟨"tok2", some "ref2", some 99⟩) rfl

/-- **C5** Persistence round-trip: saving a record that is not both
expired and renewable and then loading it yields exactly the saved
record, with no renewal performed. -/
theorem save_load_roundtrip (store : TokenStore) (u newTok : String)
    (r : Credentials) (now lifetime : Nat)
    (hvalid : ¬(r.expired now = true ∧ r.hasRefreshToken = true)) :
    (get_credentials (save_credentials store u r) u now lifetime newTok).creds
      = some r
    ∧ (get_credentials (save_credentials store u r) u now lifetime
        newTok).networkRefresh = false := by
  have hcond : (r.expired now && r.hasRefreshToken) = false := by
    cases he : r.expired now <;> cases hr : r.hasRefreshToken <;>
      simp_all
  have hsaved : save_credentials store u r u = some r := by
    unfold save_credentials
    simp
  unfold get_credentials
  rw [hsaved]
  simp [hcond]

/-- Witness for `save_load_roundtrip` at a concrete non-expired record. -/
theorem save_load_roundtrip_witness :
    (get_credentials (save_credentials emptyStore "42" ⟨"tok", some "ref", some 99⟩)
        "42" 10 3600 "tok2").creds = some ⟨"tok", some "ref", some 99⟩
    ∧ (get_credentials (save_credentials emptyStore "42" ⟨"tok", some "ref", some 99⟩)
        "42" 10 3600 "tok2").networkRefresh = false :=
  save_load_roundtrip emptyStore "42" "tok2" ⟨"tok", some "ref", some 99⟩ 10 3600
    (by decide)

/-- **C6** Callback behavior contract: a missing `code` or `state`, or a
present `error` (even alongside valid `code` and `state`), yields the
400 cancellation page with no exchange attempted; otherwise the exchange
is attempted and its failure yields the 500 page while success yields
the 200 confirmation page; and the HTTP response never depends on
whether the best-effort chat notification succeeds. -/
theorem callback_contract (store : TokenStore) (code state error : String)
    (fetch : String → Except String Credentials)
    (clientPresent notifyOk : Bool) :
    ((error ≠ "" ∨ code = "" ∨ state = "") →
      (oauth_callback store code state error fetch clientPresent
        notifyOk).response = .cancelled
      ∧ (oauth_callback store code state error fetch clientPresent
          notifyOk).response.status = 400
      ∧ (oauth_callback store code state error fetch clientPresent
          notifyOk).exchangeAttempted = false)
    ∧ (error = "" → code ≠ "" → state ≠ "" →
      (oauth_callback store code state error fetch clientPresent
        notifyOk).exchangeAttempted = true
      ∧ (∀ e, fetch code = .error e →
          (oauth_callback store code state error fetch clientPresent
            notifyOk).response = .exchangeFailed e
          ∧ (oauth_callback store code state error fetch clientPresent
              notifyOk).response.status = 500)
      ∧ (∀ c, fetch code = .ok c →
          (oauth_callback store code state error fetch clientPresent
            notifyOk).response = .connected
          ∧ (oauth_callback store code state error fetch clientPresent
              notifyOk).response.status = 200))
    ∧ (∀ p1 n1 p2 n2 : Bool,
        (oauth_callback store code state error fetch p1 n1).response
          = (oauth_callback store code state error fetch p2 n2).response) := by
  refine ⟨?_, ?_, ?_⟩
  · intro h
    unfold oauth_callback
    rw [if_pos h]
    exact ⟨rfl, rfl, rfl⟩
  · intro he hc hs
    have hneg : ¬(error ≠ "" ∨ code = "" ∨ state = "") := by
      push_neg
      exact ⟨he, hc, hs⟩
    refine ⟨?_, ?_, ?_⟩
    · unfold oauth_callback
      rw [if_neg hneg]
      unfold exchange_code
      cases hf : fetch code <;> rfl
    · intro e hf
      unfold oauth_callback
      rw [if_neg hneg]
      unfold exchange_code
      rw [hf]
      exact ⟨rfl, rfl⟩
    · intro c hf
      unfold oauth_callback
      rw [if_neg hneg]
      unfold exchange_code
      rw [hf]
      exact ⟨rfl, rfl⟩
  · intro p1 n1 p2 n2
    unfold oauth_callback
    by_cases h : error ≠ "" ∨ code = "" ∨ state = ""
    · rw [if_pos h, if_pos h]
    · rw [if_neg h, if_neg h]
      cases exchange_code store state code fetch with
      | error e => rfl
      | ok pr => rfl

/-- Witness for `callback_contract`: a denied consent
(`error=access_denied`) arriving with otherwise valid `code` and
`state`. -/
theorem callback_contract_witness :
    (("access_denied" : String) ≠ "" ∨ ("c0de" : String) = "" ∨ ("42" : String) = "") ∧
    (oauth_callback emptyStore "c0de" "42" "access_denied"
      (fun _ => .ok ⟨"tok", some "ref", some 99⟩) true true).response = .cancelled
    ∧ (oauth_callback emptyStore "c0de" "42" "access_denied"
        (fun _ => .ok ⟨"tok", some "ref", some 99⟩) true true).response.status = 400
    ∧ (oauth_callback emptyStore "c0de" "42" "access_denied"
        (fun _ => .ok ⟨"tok", some "ref", some 99⟩) true true).exchangeAttempted
      = false :=
  ⟨by decide,
    (callback_contract emptyStore "c0de" "42" "access_denied"
      (fun _ => .ok ⟨"tok", some "ref", some 99⟩) true true).1 (by decide)⟩

/-- **C7** Exchange-failure atomicity: when the callback carries a valid
`code` and `state` for a user with no stored record but the exchange
throws, the handler returns the 500 failure response and
`is_authenticated(state)` is still false afterwards — nothing was
written. -/
theorem exchange_failure_atomic (store : TokenStore)
    (code state error e : String)
    (fetch : String → Except String Credentials)
    (clientPresent notifyOk : Bool)
    (hnone : store state = none)
    (herr : error = "") (hcode : code ≠ "") (hstate : state ≠ "")
    (hfetch : fetch code = .error e) :
    (oauth_callback store code state error fetch clientPresent
      notifyOk).response = .exchangeFailed e
    ∧ (oauth_callback store code state error fetch clientPresent
        notifyOk).response.status = 500
    ∧ is_authenticated
        (oauth_callback store code state error fetch clientPresent
          notifyOk).store state = false := by
  have hneg : ¬(error ≠ "" ∨ code = "" ∨ state = "") := by
    push_neg
    exact ⟨herr, hcode, hstate⟩
  unfold oauth_callback exchange_code
  rw [if_neg hneg, hfetch]
  exact ⟨rfl, rfl, by show (store state).isSome = false; rw [hnone]; rfl⟩

/-- Witness for `exchange_failure_atomic` at a concrete failing
exchange for a user with no stored record. -/
theorem exchange_failure_atomic_witness :
    (oauth_callback emptyStore "c0de" "42" ""
      (fun _ => .error "invalid_grant") true true).response
      = .exchangeFailed "invalid_grant"
    ∧ (oauth_callback emptyStore "c0de" "42" ""
        (fun _ => .error "invalid_grant") true true).response.status = 500
    ∧ is_authenticated
        (oauth_callback emptyStore "c0de" "42" ""
          (fun _ => .error "invalid_grant") true true).store "42" = false :=
  exchange_failure_atomic emptyStore "c0de" "42" "" "invalid_grant"
    (fun _ => .error "invalid_grant") true true rfl rfl (by decide) (by decide)
    rfl

/-- **C8** Consent URL construction: `get_auth_url` embeds the user id
verbatim as `state`, requests exactly the fixed scope set `SCOPES` in
the single URL, always asks the upstream to prompt for consent (with
offline access), and two calls for the same user differ only in the
per-call nonce — every other component, `state` included, is
identical. -/
theorem consent_url_construction (cfg : OAuthConfig)
    (u nonce n1 n2 : String) :
    (get_auth_url cfg u nonce).state = u
    ∧ (get_auth_url cfg u nonce).scope = SCOPES
    ∧ (get_auth_url cfg u nonce).prompt = "consent"
    ∧ (get_auth_url cfg u nonce).access_type = "offline"
    ∧ get_auth_url cfg u n1
        = { get_auth_url cfg u n2 with code_challenge := n1 }
    ∧ (get_auth_url cfg u n1).state = (get_auth_url cfg u n2).state := by
  exact ⟨rfl, rfl, rfl, rfl, rfl, rfl⟩

/-- The chunking loop reassembles to the original text whenever the
chunk size is positive. -/
lemma splitChunks_join (text : List Char) (limit : Nat) :
    0 < limit → (splitChunks text limit).flatten = text := by
  induction text, limit using splitChunks.induct with
  | case1 l =>
    intro _
    simp [splitChunks]
  | case2 c rest =>
    intro h
    exact absurd h (by omega)
  | case3 c rest l ih =>
    intro _
    rw [splitChunks]
    simp only [List.flatten_cons]
    rw [ih (by omega)]
    exact List.take_append_drop _ _

/-- Every chunk the loop produces has length at most the chunk size. -/
lemma splitChunks_length_le (text : List Char) (limit : Nat) :
    ∀ c ∈ splitChunks text limit, c.length ≤ limit := by
  induction text, limit using splitChunks.induct with
  | case1 l =>
    intro c hc
    simp [splitChunks] at hc
  | case2 c rest =>
    intro d hd
    simp [splitChunks] at hd
  | case3 c rest l ih =>
    intro d hd
    rw [splitChunks] at hd
    rcases List.mem_cons.mp hd with h | h
    · subst h
      exact List.length_take_le _ _
    · exact ih d h

/-- **C9** Reply chunking preserves content: the chunks of `_split`
concatenate back to the original reply, every chunk is at most 1900
characters, and a reply of at most 1900 characters comes back as the
single chunk `[s]`. -/
theorem reply_chunking (s : List Char) :
    (split s).flatten = s
    ∧ (∀ c ∈ split s, c.length ≤ 1900)
    ∧ (s.length ≤ 1900 → split s = [s]) := by
  unfold split
  by_cases h : s.length ≤ 1900
  · rw [if_pos h]
    exact ⟨by simp, by intro c hc; simp at hc; subst hc; omega, fun _ => rfl⟩
  · rw [if_neg h]
    exact ⟨splitChunks_join s 1900 (by omega),
      splitChunks_length_le s 1900,
      fun hc => absurd hc h⟩

/-- Witness for `reply_chunking` at a concrete short reply. -/
theorem reply_chunking_witness :
    (split "hello".toList).flatten = "hello".toList
    ∧ split "hello".toList = ["hello".toList] :=
  ⟨(reply_chunking "hello".toList).1,
   (reply_chunking "hello".toList).2.2 (by decide)⟩

/-- **C10** Pending UI slots deliver at most once: for both the picker
and the form slot, popping after a store returns exactly the stored
value and clears the slot, and a second consecutive pop returns the
empty sentinel `none`. -/
theorem pending_slots_deliver_once (slot0 : Option (List DocMeta))
    (docs : List DocMeta) (fslot0 : Option FormDef) (form : FormDef) :
    pop_pending_picker (store_pending_picker docs slot0) = (some docs, none)
    ∧ pop_pending_picker
        (pop_pending_picker (store_pending_picker docs slot0)).2 = (none, none)
    ∧ pop_pending_form (store_pending_form form fslot0) = (some form, none)
    ∧ pop_pending_form
        (pop_pending_form (store_pending_form form fslot0)).2 = (none, none) := by
  exact ⟨rfl, rfl, rfl, rfl⟩

end DocSkiBot
